import Mathlib

/-!
Verification of the core of `proj2_nps.py`: the URL-keyed response cache
(`open_cache`, `save_cache`, `make_request_with_cache`,
`map_make_request_with_cache`), the cache-key builder
(`construct_unique_key`), the HTML extraction functions
(`build_state_url_dict`, `get_site_instance`) over a parsed-page model,
and the places renderer (`print_nearby_places`).

External I/O is made explicit: the on-disk cache document is a `DiskDoc`
value, the network is a fetcher function `String → Response`, and the
instrumented `World` state counts network fetches and cache saves so that
"no new fetch" / "no save" claims are statable.
-/

namespace NPS

/-- A parsed JSON value, as produced by `json.loads` / `response.json()`. -/
inductive JsonVal where
  | null : JsonVal
  | bool : Bool → JsonVal
  | num : Int → JsonVal
  | str : String → JsonVal
  | arr : List JsonVal → JsonVal
  | obj : List (String × JsonVal) → JsonVal

/-- A cached value: either a raw response body (`response.text`) or a
parsed JSON document (`response.json()`); the store is value-type
polymorphic across its two use sites. -/
inductive CacheValue where
  | text : String → CacheValue
  | json : JsonVal → CacheValue

/-- The in-memory cache dictionary: keys are exact request URLs. -/
abbrev CacheStore := List (String × CacheValue)

/-- The on-disk cache document: the file may be missing (`open` raises),
hold unparseable content (`json.loads` raises), or hold a serialized
store. -/
inductive DiskDoc where
  | missing : DiskDoc
  | malformed : String → DiskDoc
  | doc : CacheStore → DiskDoc

/-- The observable world: the on-disk document plus instrumentation
counting the network fetches (`requests.get` calls) and cache saves
(`save_cache` calls) performed. -/
structure World where
  disk : DiskDoc
  fetches : Nat
  saves : Nat

/-- An HTTP response, offering the raw body and the parsed JSON body. -/
structure Response where
  text : String
  json : JsonVal

/-- `open_cache` from `proj2_nps.py`: opens and parses the cache file;
any failure (missing file, unparseable content) is swallowed and an empty
dictionary is returned. -/
def open_cache (d : DiskDoc) : CacheStore :=
  match d with
  | .doc store => store
  | .missing => []
  | .malformed _ => []

/-- `save_cache` from `proj2_nps.py`: serializes the full store and
overwrites the on-disk document. -/
def save_cache (cache_dict : CacheStore) (w : World) : World :=
  { disk := .doc cache_dict, fetches := w.fetches, saves := w.saves + 1 }

/-- `make_request_with_cache` from `proj2_nps.py` (Text mode): reload the
store from disk; on a hit return the stored value; on a miss fetch,
store `response.text` under the URL, save, and return the stored value. -/
def make_request_with_cache (get : String → Response) (url : String)
    (w : World) : CacheValue × World :=
  let cache_dict := open_cache w.disk
  match cache_dict.lookup url with
  | some v => (v, w)
  | none =>
    let response := get url
    let cache_dict2 := cache_dict ++ [(url, CacheValue.text response.text)]
    let w2 := save_cache cache_dict2
      { disk := w.disk, fetches := w.fetches + 1, saves := w.saves }
    (CacheValue.text response.text, w2)

/-- `map_make_request_with_cache` from `proj2_nps.py` (Json mode): same as
`make_request_with_cache` but stores `response.json()`. -/
def map_make_request_with_cache (get : String → Response) (url : String)
    (w : World) : CacheValue × World :=
  let cache_dict := open_cache w.disk
  match cache_dict.lookup url with
  | some v => (v, w)
  | none =>
    let response := get url
    let cache_dict2 := cache_dict ++ [(url, CacheValue.json response.json)]
    let w2 := save_cache cache_dict2
      { disk := w.disk, fetches := w.fetches + 1, saves := w.saves }
    (CacheValue.json response.json, w2)

/-- Python `str.lower()` (ASCII case folding, as used on state names). -/
def pyLower (s : String) : String := ⟨s.data.map Char.toLower⟩

/-- Python `str.strip()`: remove leading and trailing whitespace. -/
def pyStrip (s : String) : String :=
  ⟨((s.data.dropWhile Char.isWhitespace).reverse.dropWhile
      Char.isWhitespace).reverse⟩

/-- Lexicographic comparison of char lists by code point, the order used
by Python `list.sort()` on strings. -/
def charListLe : List Char → List Char → Bool
  | [], _ => true
  | _ :: _, [] => false
  | a :: as, b :: bs =>
    if a < b then true else if b < a then false else charListLe as bs

/-- Python string `<=`: code-point lexicographic order. -/
def pyLe (a b : String) : Prop := charListLe a.data b.data = true

instance pyLe.decRel : DecidableRel pyLe :=
  fun a b => instDecidableEqBool (charListLe a.data b.data) true

/-- A query-parameter value: the source passes strings and ints, rendered
by Python f-string interpolation (`str`). -/
inductive ParamVal where
  | str : String → ParamVal
  | int : Int → ParamVal
deriving DecidableEq

/-- Rendering of a parameter value inside `f'{k}={params[k]}'`. -/
def ParamVal.render : ParamVal → String
  | .str s => s
  | .int n => toString n

/-- `construct_unique_key` from `proj2_nps.py`: render each `k=v` pair,
sort the rendered pair strings, and join them with `&` after
`baseurl + '?'`. -/
def construct_unique_key (baseurl : String)
    (params : List (String × ParamVal)) : String :=
  let param_strings := params.map (fun p => p.1 ++ "=" ++ p.2.render)
  let sorted := List.insertionSort pyLe param_strings
  baseurl ++ "?" ++ String.intercalate "&" sorted

/-- `NationalSite` from `proj2_nps.py`: one structured site record. -/
structure NationalSite where
  category : String
  name : String
  address : String
  zipcode : String
  phone : String
deriving DecidableEq

/-- The structured postal-address block of a detail page (the `p.adr`
element with its `addressLocality` / `addressRegion` / `postalCode`
spans), carrying the raw (untrimmed) text of each span. -/
structure AddressBlock where
  addressLocality : String
  addressRegion : String
  postalCode : String
deriving DecidableEq

/-- A parsed detail page, as seen through the BeautifulSoup queries of
`get_site_instance`: the hero header texts, the optional address block,
and the raw telephone span text. -/
structure DetailPage where
  heroName : String
  heroDesignation : String
  adr : Option AddressBlock
  telephone : String
deriving DecidableEq

/-- The extraction core of `get_site_instance` from `proj2_nps.py`,
acting on the parsed page (fetching and HTML parsing are external
collaborators): name and category from the header; if the `p.adr` block
is present, locality and region verbatim, postal code stripped, address
built as `locality + ", " + region`; otherwise the two sentinels;
telephone always stripped. -/
def get_site_instance (page : DetailPage) : NationalSite :=
  let site_name := page.heroName
  let site_category := page.heroDesignation
  let site_phone := pyStrip page.telephone
  match page.adr with
  | some blk =>
    let site_locality := blk.addressLocality
    let site_region := blk.addressRegion
    let site_zipcode := pyStrip blk.postalCode
    let site_address := site_locality ++ ", " ++ site_region
    { category := site_category, name := site_name, address := site_address,
      zipcode := site_zipcode, phone := site_phone }
  | none =>
    { category := site_category, name := site_name, address := "No address",
      zipcode := "No zipcode", phone := site_phone }

/-- The base origin `BASE_URL` from `proj2_nps.py`. -/
def BASE_URL : String := "https://www.nps.gov"

/-- One `li` entry of the homepage keyword-search widget, as seen through
the BeautifulSoup queries of `build_state_url_dict`: the anchor's string
and its `href` attribute. -/
structure StateEntry where
  name : String
  href : String
deriving DecidableEq

/-- Python dict assignment `d[k] = v`: update in place if `k` is present,
else append at the end (Python dicts preserve insertion order). -/
def dictInsert (d : List (String × String)) (k v : String) :
    List (String × String) :=
  if (d.lookup k).isSome then
    d.map (fun p => if p.1 = k then (k, v) else p)
  else
    d ++ [(k, v)]

/-- The extraction core of `build_state_url_dict` from `proj2_nps.py`,
acting on the parsed homepage entries (fetching and HTML parsing are
external collaborators): for each entry, map the lowercased anchor string
to `BASE_URL` concatenated with the `href`. -/
def build_state_url_dict (entries : List StateEntry) :
    List (String × String) :=
  entries.foldl
    (fun d e => dictInsert d (pyLower e.name) (BASE_URL ++ e.href)) []

/-- One entry of the MapQuest `searchResults` list, as indexed by
`print_nearby_places`: `name` plus the three `fields` values. -/
structure PlaceResult where
  name : String
  group_sic_code_name : String
  address : String
  city : String
deriving DecidableEq

/-- `print_nearby_places` from `proj2_nps.py`, with the printed lines
collected: for each search result in order, substitute the placeholder
for any of category/address/city of length zero and format the line. -/
def print_nearby_places (results_list : List PlaceResult) : List String :=
  results_list.map (fun result =>
    let place_name := result.name
    let place_category :=
      if result.group_sic_code_name.length = 0 then "no category"
      else result.group_sic_code_name
    let place_address :=
      if result.address.length = 0 then "no address" else result.address
    let place_city :=
      if result.city.length = 0 then "no city" else result.city
    "- " ++ place_name ++ " (" ++ place_category ++ "): " ++
      place_address ++ ", " ++ place_city)

/-- Modelled from the spec (claim C3's reading of the Key Builder): pairs
sorted lexicographically by KEY NAME before rendering and joining — to be
compared with `construct_unique_key`, which sorts the rendered `k=v`
strings instead. -/
def build_key_by_key_name (baseurl : String)
    (params : List (String × ParamVal)) : String :=
  let sorted := List.insertionSort (fun p q => pyLe p.1 q.1) params
  let param_strings := sorted.map (fun p => p.1 ++ "=" ++ p.2.render)
  baseurl ++ "?" ++ String.intercalate "&" param_strings

/-! ### Order facts about `pyLe` -/

theorem charListLe_total (as bs : List Char) :
    charListLe as bs = true ∨ charListLe bs as = true := by
  induction as generalizing bs with
  | nil => left; rfl
  | cons x xs ih =>
    cases bs with
    | nil => right; rfl
    | cons y ys =>
      by_cases hxy : x < y
      · left; simp [charListLe, hxy]
      · by_cases hyx : y < x
        · right; simp [charListLe, hyx]
        · have hx : x = y := le_antisymm (le_of_not_lt hyx) (le_of_not_lt hxy)
          subst hx
          rcases ih ys with h | h
          · left; simp [charListLe, hxy, h]
          · right; simp [charListLe, hxy, h]

theorem charListLe_trans (as bs cs : List Char)
    (hab : charListLe as bs = true) (hbc : charListLe bs cs = true) :
    charListLe as cs = true := by
  induction as generalizing bs cs with
  | nil => rfl
  | cons x xs ih =>
    cases bs with
    | nil => simp [charListLe] at hab
    | cons y ys =>
      cases cs with
      | nil => simp [charListLe] at hbc
      | cons z zs =>
        by_cases hxy : x < y
        · by_cases hyz : y < z
          · simp [charListLe, lt_trans hxy hyz]
          · by_cases hzy : z < y
            · simp [charListLe, hyz, hzy] at hbc
            · have hy : y = z := le_antisymm (le_of_not_lt hzy) (le_of_not_lt hyz)
              subst hy
              simp [charListLe, hxy]
        · by_cases hyx : y < x
          · simp [charListLe, hxy, hyx] at hab
          · have hx : x = y := le_antisymm (le_of_not_lt hyx) (le_of_not_lt hxy)
            subst hx
            simp only [charListLe, if_neg hxy, if_neg hyx] at hab
            by_cases hxz : x < z
            · simp [charListLe, hxz]
            · by_cases hzx : z < x
              · simp [charListLe, hxz, hzx] at hbc
              · have hz : x = z := le_antisymm (le_of_not_lt hzx) (le_of_not_lt hxz)
                subst hz
                simp only [charListLe, if_neg hxz, if_neg hzx] at hbc ⊢
                exact ih ys zs hab hbc

theorem charListLe_antisymm (as bs : List Char)
    (hab : charListLe as bs = true) (hba : charListLe bs as = true) :
    as = bs := by
  induction as generalizing bs with
  | nil =>
    cases bs with
    | nil => rfl
    | cons y ys => simp [charListLe] at hba
  | cons x xs ih =>
    cases bs with
    | nil => simp [charListLe] at hab
    | cons y ys =>
      by_cases hxy : x < y
      · simp [charListLe, hxy, lt_asymm hxy] at hba
      · by_cases hyx : y < x
        · simp [charListLe, hxy, hyx] at hab
        · have hx : x = y := le_antisymm (le_of_not_lt hyx) (le_of_not_lt hxy)
          subst hx
          simp only [charListLe, if_neg hxy, if_neg hyx] at hab hba
          exact congrArg (x :: ·) (ih ys hab hba)

instance pyLe.isTotal : IsTotal String pyLe :=
  ⟨fun a b => charListLe_total a.data b.data⟩

instance pyLe.isTrans : IsTrans String pyLe :=
  ⟨fun a b c hab hbc => charListLe_trans a.data b.data c.data hab hbc⟩

instance pyLe.isAntisymm : IsAntisymm String pyLe :=
  ⟨fun a b hab hba => by
    have hd := charListLe_antisymm a.data b.data hab hba
    cases a; cases b
    exact congrArg String.mk hd⟩

/-! ### Association-list lookup lemmas -/

theorem lookup_append_of_some {β : Type} {l₁ : List (String × β)}
    {k : String} {v : β} (h : l₁.lookup k = some v)
    (l₂ : List (String × β)) : (l₁ ++ l₂).lookup k = some v := by
  induction l₁ with
  | nil => simp [List.lookup] at h
  | cons p ps ih =>
    obtain ⟨k', v'⟩ := p
    cases hk : (k == k') with
    | true => simp_all [List.lookup]
    | false =>
      simp only [List.lookup, hk] at h
      simpa [List.lookup, hk] using ih h

theorem lookup_append_of_none {β : Type} {l₁ : List (String × β)}
    {k : String} (h : l₁.lookup k = none) (l₂ : List (String × β)) :
    (l₁ ++ l₂).lookup k = l₂.lookup k := by
  induction l₁ with
  | nil => rfl
  | cons p ps ih =>
    obtain ⟨k', v'⟩ := p
    cases hk : (k == k') with
    | true => simp [List.lookup, hk] at h
    | false =>
      simp only [List.lookup, hk] at h
      simpa [List.lookup, hk] using ih h

/-! ### Cache behavior lemmas -/

theorem open_cache_doc (s : CacheStore) : open_cache (DiskDoc.doc s) = s := rfl

theorem make_request_with_cache_hit (get : String → Response) (url : String)
    (w : World) (v : CacheValue)
    (h : (open_cache w.disk).lookup url = some v) :
    make_request_with_cache get url w = (v, w) := by
  simp [make_request_with_cache, h]

theorem make_request_with_cache_miss (get : String → Response) (url : String)
    (w : World) (h : (open_cache w.disk).lookup url = none) :
    make_request_with_cache get url w =
      (CacheValue.text (get url).text,
        { disk := .doc (open_cache w.disk ++
            [(url, CacheValue.text (get url).text)]),
          fetches := w.fetches + 1, saves := w.saves + 1 }) := by
  simp [make_request_with_cache, h, save_cache]

theorem map_make_request_with_cache_hit (get : String → Response)
    (url : String) (w : World) (v : CacheValue)
    (h : (open_cache w.disk).lookup url = some v) :
    map_make_request_with_cache get url w = (v, w) := by
  simp [map_make_request_with_cache, h]

theorem map_make_request_with_cache_miss (get : String → Response)
    (url : String) (w : World)
    (h : (open_cache w.disk).lookup url = none) :
    map_make_request_with_cache get url w =
      (CacheValue.json (get url).json,
        { disk := .doc (open_cache w.disk ++
            [(url, CacheValue.json (get url).json)]),
          fetches := w.fetches + 1, saves := w.saves + 1 }) := by
  simp [map_make_request_with_cache, h, save_cache]

theorem make_request_with_cache_stores (get : String → Response)
    (url : String) (w : World) :
    (open_cache (make_request_with_cache get url w).2.disk).lookup url =
      some (make_request_with_cache get url w).1 := by
  cases h : (open_cache w.disk).lookup url with
  | some v => rw [make_request_with_cache_hit get url w v h]; exact h
  | none =>
    rw [make_request_with_cache_miss get url w h]
    rw [open_cache_doc, lookup_append_of_none h]
    simp [List.lookup]

theorem map_make_request_with_cache_stores (get : String → Response)
    (url : String) (w : World) :
    (open_cache (map_make_request_with_cache get url w).2.disk).lookup url =
      some (map_make_request_with_cache get url w).1 := by
  cases h : (open_cache w.disk).lookup url with
  | some v => rw [map_make_request_with_cache_hit get url w v h]; exact h
  | none =>
    rw [map_make_request_with_cache_miss get url w h]
    rw [open_cache_doc, lookup_append_of_none h]
    simp [List.lookup]

/-! ### Claim theorems -/

/-- C1: for every key, fetcher, and value kind (Text mode
`make_request_with_cache`, Json mode `map_make_request_with_cache`),
calling fetch-or-get twice with the same key invokes the fetcher at most
once (at most one network fetch is performed across both calls), and the
second call returns the identical value as the first without performing a
new network fetch (it leaves the world, and its fetch count, unchanged). -/
theorem fetch_or_get_idempotent (get : String → Response) (url : String)
    (w : World) :
    (make_request_with_cache get url (make_request_with_cache get url w).2 =
        ((make_request_with_cache get url w).1,
          (make_request_with_cache get url w).2) ∧
      (make_request_with_cache get url w).2.fetches ≤ w.fetches + 1) ∧
    (map_make_request_with_cache get url
          (map_make_request_with_cache get url w).2 =
        ((map_make_request_with_cache get url w).1,
          (map_make_request_with_cache get url w).2) ∧
      (map_make_request_with_cache get url w).2.fetches ≤ w.fetches + 1) := by
  refine ⟨⟨?_, ?_⟩, ?_, ?_⟩
  · exact make_request_with_cache_hit get url _ _
      (make_request_with_cache_stores get url w)
  · cases h : (open_cache w.disk).lookup url with
    | some v =>
      rw [make_request_with_cache_hit get url w v h]
      exact Nat.le_succ _
    | none =>
      rw [make_request_with_cache_miss get url w h]
  · exact map_make_request_with_cache_hit get url _ _
      (map_make_request_with_cache_stores get url w)
  · cases h : (open_cache w.disk).lookup url with
    | some v =>
      rw [map_make_request_with_cache_hit get url w v h]
      exact Nat.le_succ _
    | none =>
      rw [map_make_request_with_cache_miss get url w h]

/-- C4: `open_cache` never raises — it is total on every on-disk state,
and on a missing or malformed (unparseable) document it returns the
empty store. -/
theorem open_cache_total_resilient :
    (∀ d : DiskDoc, ∃ s : CacheStore, open_cache d = s) ∧
    open_cache DiskDoc.missing = [] ∧
    (∀ raw : String, open_cache (DiskDoc.malformed raw) = []) :=
  ⟨fun d => ⟨open_cache d, rfl⟩, rfl, fun _ => rfl⟩

/-- C5: within one run with no external modification of the on-disk
document, every fetch-or-get call (Text and Json mode) preserves the
bindings of keys already present in the loaded store: a key bound to a
value before the call is still bound to that same value afterwards. -/
theorem fetch_or_get_preserves_bindings (get : String → Response)
    (url k : String) (v : CacheValue) (w : World)
    (h : (open_cache w.disk).lookup k = some v) :
    (open_cache (make_request_with_cache get url w).2.disk).lookup k =
        some v ∧
    (open_cache (map_make_request_with_cache get url w).2.disk).lookup k =
        some v := by
  constructor
  · cases hu : (open_cache w.disk).lookup url with
    | some vu => rw [make_request_with_cache_hit get url w vu hu]; exact h
    | none =>
      rw [make_request_with_cache_miss get url w hu, open_cache_doc]
      exact lookup_append_of_some h _
  · cases hu : (open_cache w.disk).lookup url with
    | some vu => rw [map_make_request_with_cache_hit get url w vu hu]; exact h
    | none =>
      rw [map_make_request_with_cache_miss get url w hu, open_cache_doc]
      exact lookup_append_of_some h _

/-- Witness for C5: a concrete world whose store binds "a", fetched at
the fresh key "b"; the binding of "a" survives in both modes. -/
theorem fetch_or_get_preserves_bindings_witness :
    (open_cache ((make_request_with_cache
        (fun _ => { text := "body", json := JsonVal.null }) "b"
        { disk := DiskDoc.doc [("a", CacheValue.text "x")],
          fetches := 0, saves := 0 }).2.disk)).lookup "a" =
      some (CacheValue.text "x") ∧
    (open_cache ((map_make_request_with_cache
        (fun _ => { text := "body", json := JsonVal.null }) "b"
        { disk := DiskDoc.doc [("a", CacheValue.text "x")],
          fetches := 0, saves := 0 }).2.disk)).lookup "a" =
      some (CacheValue.text "x") :=
  fetch_or_get_preserves_bindings
    (fun _ => { text := "body", json := JsonVal.null }) "b" "a"
    (CacheValue.text "x")
    { disk := DiskDoc.doc [("a", CacheValue.text "x")],
      fetches := 0, saves := 0 } rfl

/-- C10: a fetch-or-get call on a key already present in the loaded store
performs no write: the hit path returns the stored value and leaves the
world — the persisted document and the save count — unchanged; only a
miss triggers a save (exactly one). -/
theorem fetch_or_get_hit_no_save :
    (∀ (get : String → Response) (url : String) (w : World) (v : CacheValue),
        (open_cache w.disk).lookup url = some v →
        make_request_with_cache get url w = (v, w) ∧
        map_make_request_with_cache get url w = (v, w)) ∧
    (∀ (get : String → Response) (url : String) (w : World),
        (open_cache w.disk).lookup url = none →
        (make_request_with_cache get url w).2.saves = w.saves + 1 ∧
        (map_make_request_with_cache get url w).2.saves = w.saves + 1) := by
  constructor
  · intro get url w v h
    exact ⟨make_request_with_cache_hit get url w v h,
      map_make_request_with_cache_hit get url w v h⟩
  · intro get url w h
    rw [make_request_with_cache_miss get url w h,
      map_make_request_with_cache_miss get url w h]
    exact ⟨rfl, rfl⟩

/-- Witness for C10: on a concrete store holding "a", a fetch of "a" is a
pure hit in both modes, and a fetch of the fresh key "b" saves once. -/
theorem fetch_or_get_hit_no_save_witness :
    (make_request_with_cache
        (fun _ => { text := "body", json := JsonVal.null }) "a"
        { disk := DiskDoc.doc [("a", CacheValue.text "x")],
          fetches := 0, saves := 0 } =
      (CacheValue.text "x",
        { disk := DiskDoc.doc [("a", CacheValue.text "x")],
          fetches := 0, saves := 0 }) ∧
      map_make_request_with_cache
        (fun _ => { text := "body", json := JsonVal.null }) "a"
        { disk := DiskDoc.doc [("a", CacheValue.text "x")],
          fetches := 0, saves := 0 } =
      (CacheValue.text "x",
        { disk := DiskDoc.doc [("a", CacheValue.text "x")],
          fetches := 0, saves := 0 })) ∧
    ((make_request_with_cache
        (fun _ => { text := "body", json := JsonVal.null }) "b"
        { disk := DiskDoc.doc [("a", CacheValue.text "x")],
          fetches := 0, saves := 0 }).2.saves = 1 ∧
      (map_make_request_with_cache
        (fun _ => { text := "body", json := JsonVal.null }) "b"
        { disk := DiskDoc.doc [("a", CacheValue.text "x")],
          fetches := 0, saves := 0 }).2.saves = 1) :=
  ⟨fetch_or_get_hit_no_save.1
      (fun _ => { text := "body", json := JsonVal.null }) "a"
      { disk := DiskDoc.doc [("a", CacheValue.text "x")],
        fetches := 0, saves := 0 } (CacheValue.text "x") rfl,
    fetch_or_get_hit_no_save.2
      (fun _ => { text := "body", json := JsonVal.null }) "b"
      { disk := DiskDoc.doc [("a", CacheValue.text "x")],
        fetches := 0, saves := 0 } rfl⟩

/-- C2: for every base URL and any two parameter mappings (lists with
no duplicate keys) that are set-equal as key/value pairs — i.e. supplied
in any construction/iteration order — `construct_unique_key` produces the
identical key string. -/
theorem construct_unique_key_order_independent (baseurl : String)
    (P1 P2 : List (String × ParamVal))
    (h1 : (P1.map Prod.fst).Nodup) (h2 : (P2.map Prod.fst).Nodup)
    (hset : ∀ p : String × ParamVal, p ∈ P1 ↔ p ∈ P2) :
    construct_unique_key baseurl P1 = construct_unique_key baseurl P2 := by
  have hperm : P1.Perm P2 :=
    (List.perm_ext_iff_of_nodup (List.Nodup.of_map _ h1)
      (List.Nodup.of_map _ h2)).mpr hset
  have hmap : (P1.map (fun p => p.1 ++ "=" ++ p.2.render)).Perm
      (P2.map (fun p => p.1 ++ "=" ++ p.2.render)) := hperm.map _
  have hs : List.insertionSort pyLe
        (P1.map (fun p => p.1 ++ "=" ++ p.2.render)) =
      List.insertionSort pyLe
        (P2.map (fun p => p.1 ++ "=" ++ p.2.render)) :=
    List.eq_of_perm_of_sorted
      ((List.perm_insertionSort _ _).trans
        (hmap.trans (List.perm_insertionSort _ _).symm))
      (List.sorted_insertionSort _ _) (List.sorted_insertionSort _ _)
  simp only [construct_unique_key, hs]

/-- Witness for C2: the two iteration orders of the mapping
`{"b": 2, "a": 1}` give the same key. -/
theorem construct_unique_key_order_independent_witness :
    construct_unique_key "http://x/y"
        [("b", ParamVal.int 2), ("a", ParamVal.int 1)] =
      construct_unique_key "http://x/y"
        [("a", ParamVal.int 1), ("b", ParamVal.int 2)] :=
  construct_unique_key_order_independent "http://x/y"
    [("b", ParamVal.int 2), ("a", ParamVal.int 1)]
    [("a", ParamVal.int 1), ("b", ParamVal.int 2)]
    (by decide) (by decide)
    (by intro p; simp only [List.mem_cons, List.not_mem_nil, or_false]; tauto)

/-- C3 counterexample: `construct_unique_key` sorts the rendered
`key=value` strings, not the keys; with keys `"a"` and `"a1"` the two
orders differ (`'='` sorts after `'1'`), so the produced key is not the
one with pairs sorted lexicographically by key name. -/
theorem construct_unique_key_not_key_name_sorted :
    construct_unique_key "http://x/y"
        [("a", ParamVal.str "x"), ("a1", ParamVal.str "y")] =
      "http://x/y?a1=y&a=x" ∧
    build_key_by_key_name "http://x/y"
        [("a", ParamVal.str "x"), ("a1", ParamVal.str "y")] =
      "http://x/y?a=x&a1=y" ∧
    construct_unique_key "http://x/y"
        [("a", ParamVal.str "x"), ("a1", ParamVal.str "y")] ≠
      build_key_by_key_name "http://x/y"
        [("a", ParamVal.str "x"), ("a1", ParamVal.str "y")] := by
  refine ⟨by decide, by decide, by decide⟩

/-- C3 (amended): `construct_unique_key` returns the base URL, then `?`,
then the `key=value` pairs joined by `&`, with the rendered pair strings
(not the key names) sorted lexicographically before joining; the example
`construct_unique_key "http://x/y" {"b": 2, "a": 1} = "http://x/y?a=1&b=2"`
holds. -/
theorem construct_unique_key_sorted_pair_strings (baseurl : String)
    (params : List (String × ParamVal)) :
    (∃ qs : List String,
        qs.Perm (params.map (fun p => p.1 ++ "=" ++ p.2.render)) ∧
        List.Sorted pyLe qs ∧
        construct_unique_key baseurl params =
          baseurl ++ "?" ++ String.intercalate "&" qs) ∧
    construct_unique_key "http://x/y"
        [("b", ParamVal.int 2), ("a", ParamVal.int 1)] =
      "http://x/y?a=1&b=2" := by
  refine ⟨⟨List.insertionSort pyLe
      (params.map (fun p => p.1 ++ "=" ++ p.2.render)),
    List.perm_insertionSort _ _, List.sorted_insertionSort _ _, ?_⟩,
    by decide⟩
  rfl

/-- C6: a detail page whose parsed content lacks a structured
postal-address block yields the sentinels `"No address"` and
`"No zipcode"` (and `get_site_instance` is total: no crash). -/
theorem get_site_instance_missing_address (page : DetailPage)
    (h : page.adr = none) :
    (get_site_instance page).address = "No address" ∧
    (get_site_instance page).zipcode = "No zipcode" := by
  simp [get_site_instance, h]

/-- Witness for C6: a concrete address-less page. -/
theorem get_site_instance_missing_address_witness :
    (get_site_instance
        { heroName := "Yosemite", heroDesignation := "National Park",
          adr := none, telephone := " 209/372-0200 " }).address =
      "No address" ∧
    (get_site_instance
        { heroName := "Yosemite", heroDesignation := "National Park",
          adr := none, telephone := " 209/372-0200 " }).zipcode =
      "No zipcode" :=
  get_site_instance_missing_address
    { heroName := "Yosemite", heroDesignation := "National Park",
      adr := none, telephone := " 209/372-0200 " } rfl

/-- C7 counterexample: locality and region are NOT trimmed by the code —
only the postal code and phone are; a page whose locality span carries a
trailing space produces `"Houghton , MI"`, not the trimmed
`"Houghton, MI"` the claim requires. -/
theorem get_site_instance_untrimmed_locality :
    (get_site_instance
        { heroName := "Isle Royale", heroDesignation := "National Park",
          adr := some { addressLocality := "Houghton ",
                        addressRegion := "MI", postalCode := " 49931 " },
          telephone := "(906) 482-0984" }).address =
      "Houghton , MI" ∧
    pyStrip "Houghton " ++ ", " ++ pyStrip "MI" = "Houghton, MI" ∧
    (get_site_instance
        { heroName := "Isle Royale", heroDesignation := "National Park",
          adr := some { addressLocality := "Houghton ",
                        addressRegion := "MI", postalCode := " 49931 " },
          telephone := "(906) 482-0984" }).address ≠
      pyStrip "Houghton " ++ ", " ++ pyStrip "MI" := by
  refine ⟨by decide, by decide, by decide⟩

/-- C7 (amended): on a detail page with a structured postal-address
block, `get_site_instance` uses the locality and region verbatim
(untrimmed), sets address to `"{locality}, {region}"`, trims the postal
code, and always trims the phone. -/
theorem get_site_instance_address_fields (page : DetailPage)
    (blk : AddressBlock) (h : page.adr = some blk) :
    (get_site_instance page).address =
      blk.addressLocality ++ ", " ++ blk.addressRegion ∧
    (get_site_instance page).zipcode = pyStrip blk.postalCode ∧
    (get_site_instance page).phone = pyStrip page.telephone := by
  simp [get_site_instance, h]

/-- Witness for C7 (amended): concrete page with raw span texts. -/
theorem get_site_instance_address_fields_witness :
    (get_site_instance
        { heroName := "Isle Royale", heroDesignation := "National Park",
          adr := some { addressLocality := "Houghton",
                        addressRegion := "MI", postalCode := "49931\n" },
          telephone := " (906) 482-0984 " }).address = "Houghton, MI" ∧
    (get_site_instance
        { heroName := "Isle Royale", heroDesignation := "National Park",
          adr := some { addressLocality := "Houghton",
                        addressRegion := "MI", postalCode := "49931\n" },
          telephone := " (906) 482-0984 " }).zipcode = pyStrip "49931\n" ∧
    (get_site_instance
        { heroName := "Isle Royale", heroDesignation := "National Park",
          adr := some { addressLocality := "Houghton",
                        addressRegion := "MI", postalCode := "49931\n" },
          telephone := " (906) 482-0984 " }).phone =
      pyStrip " (906) 482-0984 " :=
  get_site_instance_address_fields
    { heroName := "Isle Royale", heroDesignation := "National Park",
      adr := some { addressLocality := "Houghton",
                    addressRegion := "MI", postalCode := "49931\n" },
      telephone := " (906) 482-0984 " }
    { addressLocality := "Houghton", addressRegion := "MI",
      postalCode := "49931\n" } rfl

/-! ### State-index lemmas -/

theorem dictInsert_of_not_mem (d : List (String × String)) (k v : String)
    (h : d.lookup k = none) : dictInsert d k v = d ++ [(k, v)] := by
  simp [dictInsert, h]

theorem lookup_singleton_ne {β : Type} {k k' : String} (v : β)
    (h : k ≠ k') : List.lookup k [(k', v)] = none := by
  simp [List.lookup, beq_false_of_ne h]

theorem build_state_url_dict_foldl (entries : List StateEntry)
    (acc : List (String × String))
    (hnd : (entries.map (fun x => pyLower x.name)).Nodup)
    (hdisj : ∀ e ∈ entries, acc.lookup (pyLower e.name) = none) :
    entries.foldl
        (fun d e => dictInsert d (pyLower e.name) (BASE_URL ++ e.href))
        acc =
      acc ++ entries.map
        (fun e => (pyLower e.name, BASE_URL ++ e.href)) := by
  revert hnd hdisj
  induction entries generalizing acc with
  | nil => intro _ _; simp
  | cons e es ih =>
    intro hnd hdisj
    rw [List.map_cons, List.nodup_cons] at hnd
    rw [List.foldl_cons,
      dictInsert_of_not_mem _ _ _ (hdisj e (List.mem_cons_self e es)),
      ih (acc ++ [(pyLower e.name, BASE_URL ++ e.href)]) hnd.2 ?_,
      List.map_cons, List.append_assoc, List.singleton_append]
    intro e' he'
    rw [lookup_append_of_none (hdisj e' (List.mem_cons_of_mem e he'))]
    exact lookup_singleton_ne _
      (fun hEq => hnd.1 (hEq ▸ List.mem_map_of_mem _ he'))

theorem lookup_map_of_nodup {α β : Type} (key : α → String) (val : α → β)
    (l : List α) (e : α) (hnd : (l.map key).Nodup) (he : e ∈ l) :
    (l.map (fun x => (key x, val x))).lookup (key e) = some (val e) := by
  induction l with
  | nil => cases he
  | cons a as ih =>
    rw [List.map_cons, List.nodup_cons] at hnd
    rcases List.mem_cons.mp he with rfl | hmem
    · simp [List.lookup]
    · have hne : key e ≠ key a :=
        fun hEq => hnd.1 (hEq ▸ List.mem_map_of_mem _ hmem)
      simp only [List.map_cons, List.lookup, beq_false_of_ne hne]
      exact ih hnd.2 hmem

theorem string_length_eq_zero_iff (s : String) : s.length = 0 ↔ s = "" := by
  cases s with
  | mk d => simp [String.length, List.length_eq_zero, String.ext_iff]

/-- C8: for every homepage entry list with distinct lowercased state
names, each entry whose `href` is a relative path (leading `'/'`) is
mapped — under its name lowercased — to the absolute URL obtained by
prefixing the base origin (the result starts with `"https://"`); in
particular the entry `("Michigan", "/state/mi/index.htm")` maps
`"michigan"` to `"https://www.nps.gov/state/mi/index.htm"`. -/
theorem build_state_url_dict_resolves :
    (∀ (entries : List StateEntry) (e : StateEntry),
        (entries.map (fun x => pyLower x.name)).Nodup →
        e ∈ entries →
        e.href.data.head? = some '/' →
        (build_state_url_dict entries).lookup (pyLower e.name) =
          some (BASE_URL ++ e.href) ∧
        (BASE_URL ++ e.href).data.take 8 = "https://".data) ∧
    (build_state_url_dict
        [{ name := "Michigan", href := "/state/mi/index.htm" }]).lookup
        "michigan" =
      some "https://www.nps.gov/state/mi/index.htm" := by
  constructor
  · intro entries e hnd he _
    constructor
    · rw [build_state_url_dict,
        build_state_url_dict_foldl entries [] hnd (fun _ _ => rfl),
        List.nil_append]
      exact lookup_map_of_nodup _ _ entries e hnd he
    · rw [String.data_append, List.take_append_of_le_length (by decide)]
      rfl
  · decide

/-- Witness for C8: the Michigan homepage fixture discharges the
universal part's hypotheses. -/
theorem build_state_url_dict_resolves_witness :
    (build_state_url_dict
        [{ name := "Michigan", href := "/state/mi/index.htm" }]).lookup
        (pyLower "Michigan") =
      some (BASE_URL ++ "/state/mi/index.htm") ∧
    (BASE_URL ++ "/state/mi/index.htm").data.take 8 = "https://".data :=
  build_state_url_dict_resolves.1
    [{ name := "Michigan", href := "/state/mi/index.htm" }]
    { name := "Michigan", href := "/state/mi/index.htm" }
    (by decide) (List.mem_singleton_self _) rfl

/-- C9: rendering a places result produces, for each entry in order, the
line `"- {name} ({category}): {address}, {city}"`, with the literal
placeholder substituted for exactly those of category/address/city that
are the empty string, and every non-empty field rendered verbatim. -/
theorem print_nearby_places_lines (results : List PlaceResult) :
    print_nearby_places results = results.map (fun r =>
      "- " ++ r.name ++ " (" ++
        (if r.group_sic_code_name = "" then "no category"
          else r.group_sic_code_name) ++ "): " ++
        (if r.address = "" then "no address" else r.address) ++ ", " ++
        (if r.city = "" then "no city" else r.city)) := by
  simp only [print_nearby_places, string_length_eq_zero_iff]

end NPS
